import Mathlib

/-!
Shallow embedding of the core of the Restaurant-Reservation-App repository:
the reservation lifecycle (`reservation/services/reservation.py`), slot
availability (`reservation/services/availability.py`), waitlist handling
(`reservation/services/waitlist.py`), the model-level transition methods
(`reservation/models.py`), the periodic sweeps (`reservation/tasks.py`) and
the payment-verification endpoint (`reservation/views.py`,
`reservation/serializers.py`).

Conventions: Django rows become Lean structures; primary-key lookups become
`List.find?` over the table's row list; `save()` on a fetched row becomes a
map replacing the row with the same id; datetimes are `Nat` seconds,
times-of-day are `Nat` minutes of the day, dates are `Nat` day numbers.
Python calls that raise because the attribute, method or keyword argument
they use does not exist in the repository (`Reservation.mark_expired`,
`WaitlistService.process_waitlist`, the `from_waitlist` keyword,
`validated_data["payment_id"]`) are modelled as explicit crash outcomes
that leave the store unchanged exactly as far as the exception leaves the
database unchanged in the source.
-/

namespace RestaurantApp

/-- Table.TableType choices from `restaurant/models.py`. -/
inductive TableType where
  | NORMAL
  | VIP
deriving DecidableEq, Repr

/-- Restaurant row from `restaurant/models.py`: the two per-seat prices are
`PositiveIntegerField`s. Opening hours are not needed by the claims. -/
structure Restaurant where
  id : Nat
  vip_price_per_seat : Nat
  normal_price_per_seat : Nat
deriving DecidableEq, Repr

/-- Table row from `restaurant/models.py`. -/
structure Table where
  id : Nat
  restaurant : Restaurant
  table_type : TableType
  capacity : Nat
deriving DecidableEq, Repr

/-- Reservation.Status choices from `reservation/models.py`; there is no
separate EXPIRED status in the source, expiry reuses `cancelled`. -/
inductive RStatus where
  | pending
  | confirmed
  | cancelled
  | completed
deriving DecidableEq, Repr

/-- PaymentRecord.Status choices from `reservation/models.py`. -/
inductive PayStatus where
  | pending
  | verified
  | failed
deriving DecidableEq, Repr

/-- WaitlistEntry.Status choices from `reservation/models.py`. -/
inductive WStatus where
  | waiting
  | notified
  | converted
  | expired
  | cancelled
deriving DecidableEq, Repr

/-- Reservation row from `reservation/models.py`. -/
structure Reservation where
  id : Nat
  userId : Nat
  tableId : Nat
  date : Nat
  start_time : Nat
  end_time : Nat
  guest_count : Nat
  price : Nat
  status : RStatus
  payment_deadline : Option Nat
  cancellation_reason : String
  created_at : Nat
deriving DecidableEq, Repr

/-- PaymentRecord row from `reservation/models.py`. -/
structure PaymentRecord where
  id : Nat
  reservationId : Nat
  amount : Nat
  ref_id : String
  status : PayStatus
  created_at : Nat
  verified_at : Option Nat
deriving DecidableEq, Repr

/-- WaitlistEntry row from `reservation/models.py`. -/
structure WaitlistEntry where
  id : Nat
  userId : Nat
  tableId : Nat
  date : Nat
  start_time : Nat
  end_time : Nat
  guest_count : Nat
  status : WStatus
  position : Nat
  notified_at : Option Nat
  payment_deadline : Option Nat
  reservationId : Option Nat
  created_at : Nat
deriving DecidableEq, Repr

/-- The shared durable store: the three row lists plus the primary-key
counters the database would maintain. -/
structure DB where
  reservations : List Reservation
  payments : List PaymentRecord
  waitlist : List WaitlistEntry
  nextResId : Nat
  nextPayId : Nat
deriving DecidableEq, Repr

/-- Empty store. -/
def initDB : DB :=
  { reservations := [], payments := [], waitlist := [], nextResId := 1, nextPayId := 1 }

/-- The `status__in=[PENDING, CONFIRMED]` filter used by every conflict query. -/
def isActive : RStatus → Bool
  | .pending => true
  | .confirmed => true
  | .cancelled => false
  | .completed => false

/-- The time-overlap filter `Q(start_time__lt=end_time) & Q(end_time__gt=start_time)`
shared by `check_table_availability`, `_get_overlap_base_query` and
`get_first_waiting_entry`. -/
def overlapsWindow (rStart rEnd s e : Nat) : Bool :=
  decide (rStart < e) && decide (rEnd > s)

/-- `ReservationService.check_table_availability` (without the optional
`exclude_reservation_id`, which no caller passes): true iff no PENDING or
CONFIRMED reservation on the same table and date overlaps the window. -/
def check_table_availability (resvs : List Reservation) (tableId date s e : Nat) : Bool :=
  ! resvs.any fun r =>
      r.tableId == tableId && r.date == date && isActive r.status &&
        overlapsWindow r.start_time r.end_time s e

/-- `TableAvailabilityService._get_overlap_base_query`: active reservations on
the date overlapping the window, not yet restricted to a table. -/
def overlap_base (resvs : List Reservation) (date s e : Nat) : List Reservation :=
  resvs.filter fun r =>
    r.date == date && isActive r.status && overlapsWindow r.start_time r.end_time s e

/-- `TableAvailabilityService.check_specific_table_availability`. -/
def check_specific_table_availability (resvs : List Reservation) (tableId date s e : Nat) : Bool :=
  ((overlap_base resvs date s e).filter fun r => r.tableId == tableId).isEmpty

/-- `ReservationService.validate_guest_count` reduced to its boolean part. -/
def validate_guest_count (table : Table) (guest_count : Nat) : Bool :=
  ! decide (guest_count > table.capacity)

/-- `ReservationService.calculate_price`: always the restaurant's normal
per-seat rate times the guest count, whatever the table's type. -/
def calculate_price (table : Table) (guest_count : Nat) : Nat :=
  table.restaurant.normal_price_per_seat * guest_count

/-- `Reservation.clean()` run from `save()`'s `full_clean()`: end after start,
and a VIP table admits at most one active reservation per date. -/
def cleanFails (resvs : List Reservation) (table : Table) (date s e : Nat) : Bool :=
  decide (e ≤ s) ||
    (table.table_type == TableType.VIP &&
      resvs.any fun r => r.tableId == table.id && r.date == date && isActive r.status)

/-- Error cases of `ReservationService.create_reservation`: the capacity
message, the conflict message, or a ValidationError escaping from `save()`. -/
inductive CreateError where
  | capacityExceeded
  | slotConflict
  | validationError
deriving DecidableEq, Repr

/-- Result of `ReservationService.create_reservation`. -/
inductive CreateResult where
  | ok (r : Reservation) (db : DB)
  | err (e : CreateError)
deriving DecidableEq, Repr

/-- The reservation row `Reservation.objects.create(...)` inserts, with the
15-minute payment deadline `set_payment_deadline(15)` stamps right after,
inside the same atomic block. -/
def new_reservation (db : DB) (now userId : Nat) (table : Table)
    (date s e gc : Nat) : Reservation :=
  { id := db.nextResId, userId := userId, tableId := table.id, date := date,
    start_time := s, end_time := e, guest_count := gc,
    price := calculate_price table gc, status := .pending,
    payment_deadline := some (now + 15 * 60),
    cancellation_reason := "", created_at := now }

/-- The row `_create_payment_record` inserts: amount is the reservation's
price, status PENDING. -/
def new_payment (db : DB) (now : Nat) (r : Reservation) : PaymentRecord :=
  { id := db.nextPayId, reservationId := r.id, amount := r.price, ref_id := "",
    status := .pending, created_at := now, verified_at := none }

/-- `ReservationService.create_reservation` continued: capacity check,
availability check, price, then the atomic block. -/
def create_reservation (db : DB) (now userId : Nat) (table : Table)
    (date s e gc : Nat) : CreateResult :=
  if !validate_guest_count table gc then .err .capacityExceeded
  else if !check_table_availability db.reservations table.id date s e then .err .slotConflict
  else if cleanFails db.reservations table date s e then .err .validationError
  else
    let r := new_reservation db now userId table date s e gc
    .ok r { db with
            reservations := db.reservations ++ [r],
            payments := db.payments ++ [new_payment db now r],
            nextResId := db.nextResId + 1,
            nextPayId := db.nextPayId + 1 }

/-- Saving a fetched row: replace the row carrying the same primary key. -/
def saveRes (resvs : List Reservation) (r : Reservation) : List Reservation :=
  resvs.map fun x => if x.id == r.id then r else x

/-- `Reservation.confirm()`. -/
def Reservation.confirm (r : Reservation) : Reservation :=
  { r with status := .confirmed, payment_deadline := none }

/-- `Reservation.cancel(reason)`. -/
def Reservation.cancel (r : Reservation) (reason : String) : Reservation :=
  { r with status := .cancelled, cancellation_reason := reason }

/-- `Reservation.complete()`. -/
def Reservation.complete (r : Reservation) : Reservation :=
  { r with status := .completed }

/-- `Reservation.is_payment_expired()`: strictly past the deadline, false
when the deadline is cleared. -/
def is_payment_expired (now : Nat) (r : Reservation) : Bool :=
  match r.payment_deadline with
  | some d => decide (now > d)
  | none => false

/-- Outcomes of `ReservationService.confirm_reservation`. The branch that
calls `reservation.mark_expired()` raises AttributeError because the
Reservation model defines no such method, before any field is written. -/
inductive ConfirmOutcome where
  | notFound
  | notPending
  | crashMarkExpired
  | ok
deriving DecidableEq, Repr

/-- `ReservationService.confirm_reservation`. -/
def confirm_reservation (db : DB) (now rid : Nat) : ConfirmOutcome × DB :=
  match db.reservations.find? fun r => r.id == rid with
  | none => (.notFound, db)
  | some r =>
    if r.status != RStatus.pending then (.notPending, db)
    else if is_payment_expired now r then (.crashMarkExpired, db)
    else (.ok, { db with reservations := saveRes db.reservations r.confirm })

/-- Outcomes of `ReservationService.cancel_reservation`. After committing
`reservation.cancel(reason)` it calls `WaitlistService.process_waitlist`, a
method the waitlist service does not define (only `process_waitlist_for_slot`
exists), so AttributeError propagates and `return True` is never reached. -/
inductive CancelOutcome where
  | notFound
  | crashProcessWaitlistMissing
deriving DecidableEq, Repr

/-- `ReservationService.cancel_reservation`. -/
def cancel_reservation (db : DB) (rid : Nat) (reason : String) : CancelOutcome × DB :=
  match db.reservations.find? fun r => r.id == rid with
  | none => (.notFound, db)
  | some r =>
    (.crashProcessWaitlistMissing,
      { db with reservations := saveRes db.reservations (r.cancel reason) })

/-- Saving a fetched payment row. -/
def savePay (ps : List PaymentRecord) (p : PaymentRecord) : List PaymentRecord :=
  ps.map fun x => if x.id == p.id then p else x

/-- `PaymentRecord.verify(ref_id)`: no status precondition in the source; it
sets VERIFIED, stamps `verified_at`, stores the gateway reference and then
unconditionally calls `self.reservation.confirm()`. -/
def payment_verify (db : DB) (now pid : Nat) (ref : String) : DB :=
  match db.payments.find? fun p => p.id == pid with
  | none => db
  | some p =>
    let p' := { p with status := PayStatus.verified, ref_id := ref, verified_at := some now }
    let db' := { db with payments := savePay db.payments p' }
    match db'.reservations.find? fun r => r.id == p.reservationId with
    | none => db'
    | some r => { db' with reservations := saveRes db'.reservations r.confirm }

/-- `PaymentRecord.fail()`. -/
def payment_fail (db : DB) (pid : Nat) : DB :=
  match db.payments.find? fun p => p.id == pid with
  | none => db
  | some p => { db with payments := savePay db.payments { p with status := PayStatus.failed } }

/-- Request body of the payment-verification endpoint as the client sends it. -/
structure VerifyRequestBody where
  payment_id : Option Nat
  ref_id : Option String
deriving DecidableEq, Repr

/-- `PaymentVerifySerializer` declares exactly one field, `ref_id` (optional,
default empty), so its `validated_data` holds only that key. -/
def paymentVerifyValidatedData (body : VerifyRequestBody) : List (String × String) :=
  [("ref_id", body.ref_id.getD "")]

/-- Outcomes of `PaymentVerifyView.post`. Reading
`serializer.validated_data["payment_id"]` raises KeyError because the
serializer never declares a `payment_id` field. -/
inductive VerifyViewOutcome where
  | keyErrorPaymentId
  | notFound
  | ok
deriving DecidableEq, Repr

/-- The remainder of `PaymentVerifyView.post` once a payment id is in hand:
fetch the PENDING payment owned by the requester (404 otherwise), call
`payment.verify()` with no gateway reference, then `payment.reservation.confirm()`
once more. -/
def payment_verify_view_core (db : DB) (now userId pid : Nat) : VerifyViewOutcome × DB :=
  match db.payments.find? (fun p =>
      p.id == pid && p.status == PayStatus.pending &&
        (match db.reservations.find? fun r => r.id == p.reservationId with
         | some r => r.userId == userId
         | none => false)) with
  | none => (.notFound, db)
  | some p =>
    let db1 := payment_verify db now p.id ""
    let db2 := match db1.reservations.find? fun r => r.id == p.reservationId with
      | none => db1
      | some r => { db1 with reservations := saveRes db1.reservations r.confirm }
    (.ok, db2)

/-- `PaymentVerifyView.post`: validate the body, then read
`validated_data["payment_id"]`. -/
def payment_verify_view_post (db : DB) (now userId : Nat) (body : VerifyRequestBody) :
    VerifyViewOutcome × DB :=
  match (paymentVerifyValidatedData body).lookup "payment_id" with
  | none => (.keyErrorPaymentId, db)
  | some pidStr =>
    match pidStr.toNat? with
    | none => (.notFound, db)
    | some pid => payment_verify_view_core db now userId pid

/-- Saving a fetched waitlist row. -/
def saveWl (ws : List WaitlistEntry) (w : WaitlistEntry) : List WaitlistEntry :=
  ws.map fun x => if x.id == w.id then w else x

/-- `WaitlistEntry.notify()`: NOTIFIED, stamp `notified_at`, 30-minute claim
deadline. -/
def WaitlistEntry.notify (w : WaitlistEntry) (now : Nat) : WaitlistEntry :=
  { w with status := .notified, notified_at := some now,
           payment_deadline := some (now + 30 * 60) }

/-- `WaitlistEntry.convert_to_reservation(reservation)`. -/
def WaitlistEntry.convert_to_reservation (w : WaitlistEntry) (rid : Nat) : WaitlistEntry :=
  { w with status := .converted, reservationId := some rid }

/-- `WaitlistEntry.expire()`. -/
def WaitlistEntry.expire (w : WaitlistEntry) : WaitlistEntry :=
  { w with status := .expired }

/-- The candidate set of `WaitlistService.get_first_waiting_entry`: WAITING
entries on the same table and date whose window overlaps the freed slot. -/
def waitingCandidates (wl : List WaitlistEntry) (tableId date s e : Nat) : List WaitlistEntry :=
  wl.filter fun w =>
    w.tableId == tableId && w.date == date && w.status == WStatus.waiting &&
      overlapsWindow w.start_time w.end_time s e

/-- The `order_by("position", "created_at")` key comparison: strictly earlier
means smaller position, or equal position and strictly earlier creation. -/
def entryBefore (a b : WaitlistEntry) : Bool :=
  decide (a.position < b.position) ||
    (a.position == b.position && decide (a.created_at < b.created_at))

/-- Keep whichever entry sorts first under `order_by("position", "created_at")`,
the earlier row winning ties. -/
def chooseFirst (acc : Option WaitlistEntry) (w : WaitlistEntry) : Option WaitlistEntry :=
  match acc with
  | none => some w
  | some a => if entryBefore w a then some w else some a

/-- `WaitlistService.get_first_waiting_entry`: the candidate minimal under
`order_by("position", "created_at")`. -/
def get_first_waiting_entry (wl : List WaitlistEntry) (tableId date s e : Nat) :
    Option WaitlistEntry :=
  (waitingCandidates wl tableId date s e).foldl chooseFirst none

/-- `WaitlistService.process_waitlist_for_slot`: notify the first waiting
entry if any (the scheduled `expire_waitlist_entry.apply_async` is a separate
later step of the machine below). -/
def process_waitlist_for_slot (db : DB) (now tableId date s e : Nat) :
    Option WaitlistEntry × DB :=
  match get_first_waiting_entry db.waitlist tableId date s e with
  | none => (none, db)
  | some w =>
    let w' := w.notify now
    (some w', { db with waitlist := saveWl db.waitlist w' })

/-- Outcomes of `WaitlistService.convert_waitlist_to_reservation`. On the
success path the call `ReservationService.create_reservation(...,
from_waitlist=True)` raises TypeError: `create_reservation` accepts no
`from_waitlist` keyword, and the surrounding `transaction.atomic` rolls the
attempt back with nothing written. -/
inductive ConvertOutcome where
  | notFound
  | invalid
  | deadlinePassed
  | unavailable
  | crashUnexpectedKeyword
deriving DecidableEq, Repr

/-- `WaitlistService.convert_waitlist_to_reservation`. -/
def convert_waitlist_to_reservation (db : DB) (now wid : Nat) : ConvertOutcome × DB :=
  match db.waitlist.find? fun w => w.id == wid with
  | none => (.notFound, db)
  | some w =>
    if w.status != WStatus.notified then (.invalid, db)
    else if (match w.payment_deadline with
             | some d => decide (now > d)
             | none => false) then
      (.deadlinePassed, { db with waitlist := saveWl db.waitlist w.expire })
    else if !check_specific_table_availability db.reservations w.tableId w.date
        w.start_time w.end_time then
      (.unavailable, db)
    else (.crashUnexpectedKeyword, db)

/-- `tasks.expire_stale_pending_reservations`: cancels every PENDING
reservation created strictly before `now - 10` seconds, whatever its
`payment_deadline`; the per-item waitlist promotion it dispatches runs as
separate asynchronous steps. -/
def expire_stale_pending_reservations (db : DB) (now : Nat) : DB :=
  { db with reservations := db.reservations.map fun r =>
      if r.status == RStatus.pending && decide (r.created_at < now - 10) then
        r.cancel "Payment not completed within time limit"
      else r }

/-- Outcomes of `tasks.expire_pending_reservations`: the loop body calls
`reservation.mark_expired()`, a method the Reservation model does not define,
so the first matching row raises AttributeError before anything is written. -/
inductive SweepOutcome where
  | done
  | crashMarkExpired
deriving DecidableEq, Repr

/-- `tasks.expire_pending_reservations`: filter PENDING rows with
`payment_deadline__lt=now` (a null deadline never matches), then crash on the
first one. -/
def expire_pending_reservations (db : DB) (now : Nat) : SweepOutcome × DB :=
  if db.reservations.any (fun r =>
      r.status == RStatus.pending &&
        (match r.payment_deadline with
         | some d => decide (d < now)
         | none => false)) then
    (.crashMarkExpired, db)
  else (.done, db)

/-- `tasks.check_and_complete_reservations`: complete CONFIRMED reservations
whose date is past, or whose date is today and end time has passed. -/
def check_and_complete_reservations (db : DB) (today nowTime : Nat) : DB :=
  { db with reservations := db.reservations.map fun r =>
      if r.status == RStatus.confirmed && decide (r.date ≤ today) &&
          (decide (r.date < today) || decide (r.end_time ≤ nowTime)) then
        r.complete
      else r }

/-- Outcomes of `tasks.expire_waitlist_entry`. When the entry's linked
reservation is still PENDING the task calls `mark_expired()` on it; the
AttributeError is swallowed by the task's blanket exception handler, which
returns an error result with nothing written. -/
inductive ExpireWlOutcome where
  | notFound
  | alreadyProcessed
  | errorMarkExpired
  | expired
  | expiredAndNextNotified
deriving DecidableEq, Repr

/-- The tail of `tasks.expire_waitlist_entry`: expire the entry, then promote
the next candidate for the same window. -/
def expire_waitlist_entry_tail (db : DB) (now : Nat) (w : WaitlistEntry) :
    ExpireWlOutcome × DB :=
  let db1 := { db with waitlist := saveWl db.waitlist w.expire }
  match process_waitlist_for_slot db1 now w.tableId w.date w.start_time w.end_time with
  | (some _, db2) => (.expiredAndNextNotified, db2)
  | (none, db2) => (.expired, db2)

/-- `tasks.expire_waitlist_entry`. -/
def expire_waitlist_entry (db : DB) (now wid : Nat) : ExpireWlOutcome × DB :=
  match db.waitlist.find? fun w => w.id == wid with
  | none => (.notFound, db)
  | some w =>
    if w.status != WStatus.notified then (.alreadyProcessed, db)
    else
      match w.reservationId with
      | some rid =>
        match db.reservations.find? fun r => r.id == rid with
        | some r =>
          if r.status == RStatus.pending then (.errorMarkExpired, db)
          else expire_waitlist_entry_tail db now w
        | none => expire_waitlist_entry_tail db now w
      | none => expire_waitlist_entry_tail db now w

/-- `TableAvailabilityService.round_up_to_even`. -/
def round_up_to_even (number : Nat) : Nat :=
  if number % 2 == 0 then number else number + 1

/-- The `seat_price` Case annotation of `get_available_tables`: the VIP rate
for VIP tables, the normal rate otherwise. -/
def seat_price (t : Table) : Nat :=
  match t.table_type with
  | .VIP => t.restaurant.vip_price_per_seat
  | .NORMAL => t.restaurant.normal_price_per_seat

/-- The `has_reservation=Exists(...)` annotation: some active reservation on
this table and date overlaps the requested window. -/
def table_has_overlap (resvs : List Reservation) (tid date s e : Nat) : Bool :=
  !((overlap_base resvs date s e).filter fun r => r.tableId == tid).isEmpty

/-- One row of the availability listing: the table with its annotated
conflict flag and advertised full-table price. -/
structure TableRow where
  table : Table
  has_reservation : Bool
  price : Nat
deriving DecidableEq, Repr

/-- Bool as 0/1 for the `order_by` comparison (False sorts before True). -/
def boolNat : Bool → Nat
  | false => 0
  | true => 1

/-- The `order_by("has_reservation", "price", "capacity")` comparison as a
total preorder. -/
def rowLe (a b : TableRow) : Bool :=
  decide (boolNat a.has_reservation < boolNat b.has_reservation) ||
    (a.has_reservation == b.has_reservation &&
      (decide (a.price < b.price) ||
        (a.price == b.price && decide (a.table.capacity ≤ b.table.capacity))))

/-- `TableAvailabilityService.get_available_tables`: keep the restaurant's
tables with capacity at least the party size rounded up to even, annotate
each with its conflict flag and `(capacity - 1) * seat_price`, and sort by
conflict flag, then price, then capacity. -/
def get_available_tables (tables : List Table) (resvs : List Reservation)
    (restaurantId date s e party_size : Nat) : List TableRow :=
  let seats_needed := round_up_to_even party_size
  ((tables.filter fun t =>
      t.restaurant.id == restaurantId && decide (seats_needed ≤ t.capacity)).map
    fun t =>
      { table := t,
        has_reservation := table_has_overlap resvs t.id date s e,
        price := (t.capacity - 1) * seat_price t }).mergeSort rowLe

/-- Helper extracting the post-state of a create attempt: failed attempts
leave the store untouched. -/
def createDB (db : DB) (now userId : Nat) (table : Table) (date s e gc : Nat) : DB :=
  match create_reservation db now userId table date s e gc with
  | .ok _ db' => db'
  | .err _ => db

/-- One step of the reservation system: any of the lifecycle operations, the
waitlist operations, or the periodic sweeps, at arbitrary clock readings and
arbitrary caller-chosen arguments. -/
inductive Step : DB → DB → Prop where
  | create (db : DB) (now userId : Nat) (table : Table) (date s e gc : Nat) :
      Step db (createDB db now userId table date s e gc)
  | confirm (db : DB) (now rid : Nat) :
      Step db (confirm_reservation db now rid).2
  | cancel (db : DB) (rid : Nat) (reason : String) :
      Step db (cancel_reservation db rid reason).2
  | completeSweep (db : DB) (today nowTime : Nat) :
      Step db (check_and_complete_reservations db today nowTime)
  | staleSweep (db : DB) (now : Nat) :
      Step db (expire_stale_pending_reservations db now)
  | deadlineSweep (db : DB) (now : Nat) :
      Step db (expire_pending_reservations db now).2
  | promote (db : DB) (now tableId date s e : Nat) :
      Step db (process_waitlist_for_slot db now tableId date s e).2
  | convert (db : DB) (now wid : Nat) :
      Step db (convert_waitlist_to_reservation db now wid).2
  | expireWl (db : DB) (now wid : Nat) :
      Step db (expire_waitlist_entry db now wid).2

/-- States reachable from the empty store by the operations above. -/
inductive Reachable : DB → Prop where
  | init : Reachable initDB
  | step {db db' : DB} : Reachable db → Step db db' → Reachable db'

/-- Two reservations occupy conflicting slots: same table, same date, both
active, and their half-open windows overlap. -/
def SlotConflict (a b : Reservation) : Prop :=
  a.tableId = b.tableId ∧ a.date = b.date ∧
    isActive a.status = true ∧ isActive b.status = true ∧
    a.start_time < b.end_time ∧ b.start_time < a.end_time

instance (a b : Reservation) : Decidable (SlotConflict a b) := by
  unfold SlotConflict
  exact inferInstance

/-- The store invariant backing C1: fresh primary keys, unique primary keys,
and no two rows in slot conflict. -/
structure DBInv (db : DB) : Prop where
  idBound : ∀ r ∈ db.reservations, r.id < db.nextResId
  idUnique : db.reservations.Pairwise fun a b => a.id ≠ b.id
  noConflict : db.reservations.Pairwise fun a b => ¬ SlotConflict a b

/-- A concrete restaurant used for concrete evaluations below. -/
def restaurant0 : Restaurant :=
  { id := 1, vip_price_per_seat := 100, normal_price_per_seat := 50 }

/-- A normal four-seat table of `restaurant0`. -/
def table0 : Table :=
  { id := 1, restaurant := restaurant0, table_type := .NORMAL, capacity := 4 }

/-- A VIP four-seat table of `restaurant0`. -/
def vipTable0 : Table :=
  { id := 2, restaurant := restaurant0, table_type := .VIP, capacity := 4 }

/-- The price stored by a create attempt, if it succeeded. -/
def createdPrice (res : CreateResult) : Option Nat :=
  match res with
  | .ok r _ => some r.price
  | .err _ => none

/-- A PENDING reservation of `table0` awaiting payment: created at 0,
payment deadline 900. -/
def sampleRes : Reservation :=
  { id := 1, userId := 7, tableId := 1, date := 5, start_time := 720, end_time := 900,
    guest_count := 2, price := 100, status := .pending, payment_deadline := some 900,
    cancellation_reason := "", created_at := 0 }

/-- A store holding just `sampleRes`. -/
def sampleDB : DB :=
  { reservations := [sampleRes], payments := [], waitlist := [], nextResId := 2, nextPayId := 1 }

/-- A CONFIRMED reservation of `table0`. -/
def confirmedRes : Reservation :=
  { id := 1, userId := 7, tableId := 1, date := 5, start_time := 720, end_time := 840,
    guest_count := 2, price := 100, status := .confirmed, payment_deadline := none,
    cancellation_reason := "", created_at := 0 }

/-- A store holding just `confirmedRes`. -/
def confirmedDB : DB :=
  { reservations := [confirmedRes], payments := [], waitlist := [], nextResId := 2, nextPayId := 1 }

/-- A CANCELLED reservation (for example expired by the stale sweep). -/
def cancelledRes : Reservation :=
  { id := 1, userId := 7, tableId := 1, date := 5, start_time := 720, end_time := 840,
    guest_count := 2, price := 100, status := .cancelled,
    payment_deadline := none, cancellation_reason := "Payment not completed within time limit",
    created_at := 0 }

/-- An already-VERIFIED payment of `cancelledRes`'s reservation. -/
def verifiedPay : PaymentRecord :=
  { id := 1, reservationId := 1, amount := 100, ref_id := "REF1", status := .verified,
    created_at := 0, verified_at := some 100 }

/-- A store pairing the cancelled reservation with its verified payment. -/
def verifiedPayDB : DB :=
  { reservations := [cancelledRes], payments := [verifiedPay], waitlist := [],
    nextResId := 2, nextPayId := 2 }

/-- A WAITING waitlist entry overlapping `confirmedRes`'s window. -/
def entryB : WaitlistEntry :=
  { id := 1, userId := 8, tableId := 1, date := 5, start_time := 720, end_time := 840,
    guest_count := 2, status := .waiting, position := 1, notified_at := none,
    payment_deadline := none, reservationId := none, created_at := 10 }

/-- A store with the confirmed reservation and `entryB` waiting on it. -/
def cancelWaitlistDB : DB :=
  { reservations := [confirmedRes], payments := [], waitlist := [entryB],
    nextResId := 2, nextPayId := 1 }

/-- Waitlist entry created first (creation time 1) but holding the larger
queue position 2. -/
def entryE1 : WaitlistEntry :=
  { id := 1, userId := 8, tableId := 1, date := 5, start_time := 720, end_time := 840,
    guest_count := 2, status := .waiting, position := 2, notified_at := none,
    payment_deadline := none, reservationId := none, created_at := 1 }

/-- Waitlist entry created second (creation time 2) but holding the smaller
queue position 1, on a different start time bucket overlapping the same slot. -/
def entryE2 : WaitlistEntry :=
  { id := 2, userId := 9, tableId := 1, date := 5, start_time := 780, end_time := 870,
    guest_count := 2, status := .waiting, position := 1, notified_at := none,
    payment_deadline := none, reservationId := none, created_at := 2 }

/-- A NOTIFIED entry inside its 30-minute claim window (deadline 2000). -/
def notifiedEntry : WaitlistEntry :=
  { id := 1, userId := 8, tableId := 1, date := 5, start_time := 720, end_time := 840,
    guest_count := 2, status := .notified, position := 1, notified_at := some 100,
    payment_deadline := some 2000, reservationId := none, created_at := 10 }

/-- A store with `notifiedEntry` and a free table. -/
def notifiedDB : DB :=
  { reservations := [], payments := [], waitlist := [notifiedEntry],
    nextResId := 1, nextPayId := 1 }

/-- A store with `notifiedEntry` but the slot already taken by `sampleRes`. -/
def notifiedBlockedDB : DB :=
  { reservations := [sampleRes], payments := [], waitlist := [notifiedEntry],
    nextResId := 2, nextPayId := 1 }

/-- A store with only `entryE1` waiting. -/
def promoteDB0 : DB :=
  { reservations := [], payments := [], waitlist := [entryE1],
    nextResId := 1, nextPayId := 1 }

/-- Everything `SlotConflict` can observe about a row. -/
def sig (r : Reservation) : Nat × Nat × Nat × Nat × Bool :=
  (r.tableId, r.date, r.start_time, r.end_time, isActive r.status)

/-- The propositional content of one row matching a conflict query. -/
def ConflictsReq (r : Reservation) (tid d s e : Nat) : Prop :=
  r.tableId = tid ∧ r.date = d ∧ isActive r.status = true ∧
    r.start_time < e ∧ s < r.end_time

instance (r : Reservation) (tid d s e : Nat) : Decidable (ConflictsReq r tid d s e) := by
  unfold ConflictsReq
  exact inferInstance

theorem slotConflict_congr {a a' b b' : Reservation}
    (ha : sig a = sig a') (hb : sig b = sig b') :
    SlotConflict a b ↔ SlotConflict a' b' := by
  simp only [sig, Prod.mk.injEq] at ha hb
  obtain ⟨a1, a2, a3, a4, a5⟩ := ha
  obtain ⟨b1, b2, b3, b4, b5⟩ := hb
  unfold SlotConflict
  rw [a1, a2, a3, a4, a5, b1, b2, b3, b4, b5]

theorem pairwise_noconf_map_of_sig {l : List Reservation} {f : Reservation → Reservation}
    (hf : ∀ a ∈ l, sig (f a) = sig a)
    (h : l.Pairwise fun a b => ¬ SlotConflict a b) :
    (l.map f).Pairwise fun a b => ¬ SlotConflict a b := by
  rw [List.pairwise_map]
  exact h.imp_of_mem fun {a b} ha hb hab hc =>
    hab ((slotConflict_congr (hf a ha) (hf b hb)).mp hc)

theorem pairwise_noconf_map_of_deact {l : List Reservation} {f : Reservation → Reservation}
    (hf : ∀ a, f a = a ∨ isActive (f a).status = false)
    (h : l.Pairwise fun a b => ¬ SlotConflict a b) :
    (l.map f).Pairwise fun a b => ¬ SlotConflict a b := by
  rw [List.pairwise_map]
  refine h.imp fun {a b} hab hc => ?_
  rcases hf a with ha | ha
  · rcases hf b with hb | hb
    · rw [ha, hb] at hc; exact hab hc
    · exact absurd hc.2.2.2.1 (by rw [hb]; simp)
  · exact absurd hc.2.2.1 (by rw [ha]; simp)

theorem pairwise_id_map {l : List Reservation} {f : Reservation → Reservation}
    (hf : ∀ a, (f a).id = a.id)
    (h : l.Pairwise fun a b => a.id ≠ b.id) :
    (l.map f).Pairwise fun a b => a.id ≠ b.id := by
  rw [List.pairwise_map]
  exact h.imp fun {a b} hab => by rw [hf, hf]; exact hab

theorem idBound_map {l : List Reservation} {n : Nat} {f : Reservation → Reservation}
    (hf : ∀ a, (f a).id = a.id)
    (h : ∀ r ∈ l, r.id < n) : ∀ r ∈ l.map f, r.id < n := by
  intro r hr
  rcases List.mem_map.mp hr with ⟨a, ha, rfl⟩
  rw [hf]
  exact h a ha

theorem eq_of_mem_id {l : List Reservation}
    (hu : l.Pairwise fun a b => a.id ≠ b.id)
    {a b : Reservation} (ha : a ∈ l) (hb : b ∈ l) (hid : a.id = b.id) : a = b := by
  induction l with
  | nil => cases ha
  | cons c t ih =>
    rcases List.pairwise_cons.mp hu with ⟨hc, ht⟩
    rcases List.mem_cons.mp ha with rfl | ha' <;> rcases List.mem_cons.mp hb with rfl | hb'
    · rfl
    · exact absurd hid (hc b hb')
    · exact absurd hid.symm (hc a ha')
    · exact ih ht ha' hb'

theorem saveRes_id (x : Reservation) :
    ∀ a : Reservation, ((fun a => if a.id == x.id then x else a) a).id = a.id := by
  intro a
  by_cases h : a.id = x.id
  · simp [h]
  · simp [h]

/-- A `DB` that differs only outside the reservation table keeps the invariant. -/
theorem DBInv.congr_res {db db' : DB} (h : DBInv db)
    (hres : db'.reservations = db.reservations) (hid : db'.nextResId = db.nextResId) :
    DBInv db' :=
  ⟨by rw [hres, hid]; exact h.idBound,
   by rw [hres]; exact h.idUnique,
   by rw [hres]; exact h.noConflict⟩

theorem conflict_row_iff (r : Reservation) (tid d s e : Nat) :
    (r.tableId == tid && (r.date == d) && isActive r.status &&
      overlapsWindow r.start_time r.end_time s e) = true ↔ ConflictsReq r tid d s e := by
  simp only [overlapsWindow, ConflictsReq, Bool.and_eq_true, beq_iff_eq,
    decide_eq_true_eq, gt_iff_lt]
  constructor
  · rintro ⟨⟨⟨h1, h2⟩, h3⟩, h4, h5⟩
    exact ⟨h1, h2, h3, h4, h5⟩
  · rintro ⟨h1, h2, h3, h4, h5⟩
    exact ⟨⟨⟨h1, h2⟩, h3⟩, h4, h5⟩

theorem check_avail_iff {l : List Reservation} {tid d s e : Nat} :
    check_table_availability l tid d s e = true ↔
      ∀ r ∈ l, ¬ ConflictsReq r tid d s e := by
  unfold check_table_availability
  rw [Bool.not_eq_true', List.any_eq_false]
  exact forall₂_congr fun r _ => not_congr (conflict_row_iff r tid d s e)

theorem check_specific_eq (l : List Reservation) (tid d s e : Nat) :
    check_specific_table_availability l tid d s e = check_table_availability l tid d s e := by
  rw [Bool.eq_iff_iff, check_avail_iff]
  unfold check_specific_table_availability overlap_base
  rw [List.isEmpty_iff, List.filter_eq_nil_iff]
  constructor
  · intro h r hr hc
    have hmem : r ∈ List.filter
        (fun r => r.date == d && isActive r.status &&
          overlapsWindow r.start_time r.end_time s e) l := by
      rw [List.mem_filter]
      refine ⟨hr, ?_⟩
      simp only [overlapsWindow, Bool.and_eq_true, beq_iff_eq, decide_eq_true_eq, gt_iff_lt]
      exact ⟨⟨hc.2.1, hc.2.2.1⟩, hc.2.2.2.1, hc.2.2.2.2⟩
    exact h r hmem (by simp [hc.1])
  · intro h r hr hc
    rcases List.mem_filter.mp hr with ⟨hrl, hrow⟩
    simp only [overlapsWindow, Bool.and_eq_true, beq_iff_eq, decide_eq_true_eq,
      gt_iff_lt] at hrow hc
    exact h r hrl ⟨hc, hrow.1.1, hrow.1.2, hrow.2.1, hrow.2.2⟩

theorem inv_create {db : DB} (h : DBInv db) (now userId : Nat) (table : Table)
    (date s e gc : Nat) : DBInv (createDB db now userId table date s e gc) := by
  unfold createDB create_reservation
  split_ifs with h1 h2 h3
  · exact h
  · exact h
  · exact h
  · have hav : check_table_availability db.reservations table.id date s e = true := by
      simpa using h2
    refine ⟨?_, ?_, ?_⟩
    · intro r hr
      rcases List.mem_append.mp hr with hr | hr
      · exact Nat.lt_succ_of_lt (h.idBound r hr)
      · rcases List.mem_singleton.mp hr with rfl
        exact Nat.lt_succ_self _
    · rw [List.pairwise_append]
      refine ⟨h.idUnique, List.pairwise_singleton _ _, ?_⟩
      intro a ha b hb
      rcases List.mem_singleton.mp hb with rfl
      exact Nat.ne_of_lt (h.idBound a ha)
    · rw [List.pairwise_append]
      refine ⟨h.noConflict, List.pairwise_singleton _ _, ?_⟩
      intro a ha b hb hc
      rcases List.mem_singleton.mp hb with rfl
      exact check_avail_iff.mp hav a ha
        ⟨hc.1, hc.2.1, hc.2.2.1, hc.2.2.2.2.1, hc.2.2.2.2.2⟩

theorem inv_confirm {db : DB} (h : DBInv db) (now rid : Nat) :
    DBInv (confirm_reservation db now rid).2 := by
  unfold confirm_reservation
  cases hf : db.reservations.find? (fun r => r.id == rid) with
  | none => exact h
  | some r =>
    by_cases hs : (r.status != RStatus.pending) = true
    · simp only [hs, if_true]
      exact h
    · by_cases he : is_payment_expired now r = true
      · simp only [hs, if_false, he, if_true]
        exact h
      · simp only [hs, if_false, he]
        have hp : r.status = RStatus.pending := by
          simpa using hs
        have hrmem : r ∈ db.reservations := List.mem_of_find?_eq_some hf
        unfold saveRes
        refine ⟨idBound_map (saveRes_id _) h.idBound,
          pairwise_id_map (saveRes_id _) h.idUnique, ?_⟩
        apply pairwise_noconf_map_of_sig ?_ h.noConflict
        intro a ha
        by_cases hid : a.id = r.confirm.id
        · have har : a = r :=
            eq_of_mem_id h.idUnique ha hrmem (by simpa [Reservation.confirm] using hid)
          subst har
          simp [sig, Reservation.confirm, isActive, hp]
        · simp [hid]

theorem inv_cancel {db : DB} (h : DBInv db) (rid : Nat) (reason : String) :
    DBInv (cancel_reservation db rid reason).2 := by
  unfold cancel_reservation
  cases hf : db.reservations.find? (fun r => r.id == rid) with
  | none => exact h
  | some r =>
    unfold saveRes
    refine ⟨idBound_map (saveRes_id _) h.idBound,
      pairwise_id_map (saveRes_id _) h.idUnique, ?_⟩
    apply pairwise_noconf_map_of_deact ?_ h.noConflict
    intro a
    by_cases hid : a.id = (r.cancel reason).id
    · right
      simp [hid, Reservation.cancel, isActive]
    · left
      simp [hid]

theorem inv_stale {db : DB} (h : DBInv db) (now : Nat) :
    DBInv (expire_stale_pending_reservations db now) := by
  unfold expire_stale_pending_reservations
  refine ⟨?_, ?_, ?_⟩
  · apply idBound_map ?_ h.idBound
    intro a
    by_cases hc : (a.status == RStatus.pending && decide (a.created_at < now - 10)) = true
    · simp [hc, Reservation.cancel]
    · simp [hc]
  · apply pairwise_id_map ?_ h.idUnique
    intro a
    by_cases hc : (a.status == RStatus.pending && decide (a.created_at < now - 10)) = true
    · simp [hc, Reservation.cancel]
    · simp [hc]
  · apply pairwise_noconf_map_of_deact ?_ h.noConflict
    intro a
    by_cases hc : (a.status == RStatus.pending && decide (a.created_at < now - 10)) = true
    · right
      simp [hc, Reservation.cancel, isActive]
    · left
      simp [hc]

theorem inv_complete {db : DB} (h : DBInv db) (today nowTime : Nat) :
    DBInv (check_and_complete_reservations db today nowTime) := by
  unfold check_and_complete_reservations
  refine ⟨?_, ?_, ?_⟩
  · apply idBound_map ?_ h.idBound
    intro a
    by_cases hc : (a.status == RStatus.confirmed && decide (a.date ≤ today) &&
        (decide (a.date < today) || decide (a.end_time ≤ nowTime))) = true
    · simp [hc, Reservation.complete]
    · simp [hc]
  · apply pairwise_id_map ?_ h.idUnique
    intro a
    by_cases hc : (a.status == RStatus.confirmed && decide (a.date ≤ today) &&
        (decide (a.date < today) || decide (a.end_time ≤ nowTime))) = true
    · simp [hc, Reservation.complete]
    · simp [hc]
  · apply pairwise_noconf_map_of_deact ?_ h.noConflict
    intro a
    by_cases hc : (a.status == RStatus.confirmed && decide (a.date ≤ today) &&
        (decide (a.date < today) || decide (a.end_time ≤ nowTime))) = true
    · right
      simp [hc, Reservation.complete, isActive]
    · left
      simp [hc]

theorem promote_res_eq (db : DB) (now t d s e : Nat) :
    (process_waitlist_for_slot db now t d s e).2.reservations = db.reservations ∧
    (process_waitlist_for_slot db now t d s e).2.nextResId = db.nextResId := by
  unfold process_waitlist_for_slot
  cases get_first_waiting_entry db.waitlist t d s e <;> exact ⟨rfl, rfl⟩

theorem convert_res_eq (db : DB) (now wid : Nat) :
    (convert_waitlist_to_reservation db now wid).2.reservations = db.reservations ∧
    (convert_waitlist_to_reservation db now wid).2.nextResId = db.nextResId := by
  unfold convert_waitlist_to_reservation
  split
  · exact ⟨rfl, rfl⟩
  · split
    · exact ⟨rfl, rfl⟩
    · split
      · exact ⟨rfl, rfl⟩
      · split <;> exact ⟨rfl, rfl⟩

theorem expire_tail_res_eq (db : DB) (now : Nat) (w : WaitlistEntry) :
    (expire_waitlist_entry_tail db now w).2.reservations = db.reservations ∧
    (expire_waitlist_entry_tail db now w).2.nextResId = db.nextResId := by
  simp only [expire_waitlist_entry_tail, process_waitlist_for_slot]
  cases get_first_waiting_entry (saveWl db.waitlist w.expire) w.tableId w.date
      w.start_time w.end_time <;> exact ⟨rfl, rfl⟩

theorem expireWl_res_eq (db : DB) (now wid : Nat) :
    (expire_waitlist_entry db now wid).2.reservations = db.reservations ∧
    (expire_waitlist_entry db now wid).2.nextResId = db.nextResId := by
  unfold expire_waitlist_entry
  split
  · exact ⟨rfl, rfl⟩
  · rename_i w _
    split
    · exact ⟨rfl, rfl⟩
    · split
      · split
        · split
          · exact ⟨rfl, rfl⟩
          · exact expire_tail_res_eq db now w
        · exact expire_tail_res_eq db now w
      · exact expire_tail_res_eq db now w

theorem deadline_sweep_db_eq (db : DB) (now : Nat) :
    (expire_pending_reservations db now).2 = db := by
  unfold expire_pending_reservations
  split <;> rfl

theorem inv_step {db db' : DB} (h : DBInv db) (st : Step db db') : DBInv db' := by
  cases st with
  | create now userId table date s e gc => exact inv_create h now userId table date s e gc
  | confirm now rid => exact inv_confirm h now rid
  | cancel rid reason => exact inv_cancel h rid reason
  | completeSweep today nowTime => exact inv_complete h today nowTime
  | staleSweep now => exact inv_stale h now
  | deadlineSweep now =>
      exact h.congr_res (by rw [deadline_sweep_db_eq]) (by rw [deadline_sweep_db_eq])
  | promote now tableId date s e =>
      exact h.congr_res (promote_res_eq db now tableId date s e).1
        (promote_res_eq db now tableId date s e).2
  | convert now wid =>
      exact h.congr_res (convert_res_eq db now wid).1 (convert_res_eq db now wid).2
  | expireWl now wid =>
      exact h.congr_res (expireWl_res_eq db now wid).1 (expireWl_res_eq db now wid).2

theorem reachable_inv {db : DB} (h : Reachable db) : DBInv db := by
  induction h with
  | init =>
      exact ⟨(by intro r hr; simp [initDB] at hr), (by simp [initDB]), (by simp [initDB])⟩
  | step _ st ih => exact inv_step ih st

theorem entryBefore_iff (a b : WaitlistEntry) :
    entryBefore a b = true ↔
      a.position < b.position ∨ (a.position = b.position ∧ a.created_at < b.created_at) := by
  simp [entryBefore, Bool.or_eq_true, Bool.and_eq_true, beq_iff_eq, decide_eq_true_eq]

theorem entryBefore_irrefl (w : WaitlistEntry) : ¬ entryBefore w w = true := by
  rw [entryBefore_iff]
  omega

theorem entryBefore_skip {y a w : WaitlistEntry}
    (h1 : ¬ entryBefore y a = true) (h2 : entryBefore y w = true) :
    entryBefore a w = true := by
  rw [entryBefore_iff] at *
  omega

theorem entryBefore_keep {y a w : WaitlistEntry}
    (h1 : ¬ entryBefore y w = true) (h2 : entryBefore y a = true) :
    ¬ entryBefore a w = true := by
  rw [entryBefore_iff] at *
  omega

theorem chooseFirst_ne_none (acc : Option WaitlistEntry) (w : WaitlistEntry) :
    chooseFirst acc w ≠ none := by
  cases acc with
  | none => simp [chooseFirst]
  | some a =>
    simp only [chooseFirst]
    split <;> simp

theorem fold_min_spec (l : List WaitlistEntry) :
    ∀ acc : Option WaitlistEntry,
      (l.foldl chooseFirst acc = none ↔ (l = [] ∧ acc = none)) ∧
      (∀ w, l.foldl chooseFirst acc = some w →
        (acc = some w ∨ w ∈ l) ∧
        (∀ x ∈ l, ¬ entryBefore x w = true) ∧
        (∀ a, acc = some a → ¬ entryBefore a w = true)) := by
  induction l with
  | nil =>
    intro acc
    refine ⟨by simp, ?_⟩
    intro w hw
    simp only [List.foldl_nil] at hw
    refine ⟨Or.inl hw, by simp, ?_⟩
    intro a ha
    rw [hw] at ha
    cases ha
    exact entryBefore_irrefl w
  | cons y t ih =>
    intro acc
    have hstep : (y :: t).foldl chooseFirst acc = t.foldl chooseFirst (chooseFirst acc y) :=
      rfl
    constructor
    · rw [hstep, (ih (chooseFirst acc y)).1]
      simp [chooseFirst_ne_none]
    · intro w hw
      rw [hstep] at hw
      obtain ⟨hmem, hmin, hacc⟩ := (ih (chooseFirst acc y)).2 w hw
      have hy : ¬ entryBefore y w = true := by
        cases hacc0 : acc with
        | none =>
          exact hacc y (by simp [chooseFirst, hacc0])
        | some a =>
          by_cases hb : entryBefore y a = true
          · exact hacc y (by simp [chooseFirst, hacc0, hb])
          · intro hyw
            exact hacc a (by simp [chooseFirst, hacc0, hb]) (entryBefore_skip hb hyw)
      refine ⟨?_, ?_, ?_⟩
      · rcases hmem with hm | hm
        · cases hacc0 : acc with
          | none =>
            rw [hacc0] at hm
            simp only [chooseFirst] at hm
            cases hm
            exact Or.inr (List.mem_cons_self y t)
          | some a =>
            rw [hacc0] at hm
            simp only [chooseFirst] at hm
            by_cases hb : entryBefore y a = true
            · rw [if_pos hb] at hm
              cases hm
              exact Or.inr (List.mem_cons_self y t)
            · rw [if_neg hb] at hm
              exact Or.inl (hacc0 ▸ hm)
        · exact Or.inr (List.mem_cons_of_mem y hm)
      · intro x hx
        rcases List.mem_cons.mp hx with rfl | hx'
        · exact hy
        · exact hmin x hx'
      · intro a ha
        subst ha
        by_cases hb : entryBefore y a = true
        · exact entryBefore_keep hy hb
        · exact hacc a (by simp [chooseFirst, hb])

theorem get_first_spec (wl : List WaitlistEntry) (tid d s e : Nat) :
    (get_first_waiting_entry wl tid d s e = none ↔ waitingCandidates wl tid d s e = []) ∧
    (∀ w, get_first_waiting_entry wl tid d s e = some w →
      w ∈ waitingCandidates wl tid d s e ∧
      ∀ x ∈ waitingCandidates wl tid d s e, ¬ entryBefore x w = true) := by
  unfold get_first_waiting_entry
  obtain ⟨h1, h2⟩ := fold_min_spec (waitingCandidates wl tid d s e) none
  refine ⟨by rw [h1]; simp, ?_⟩
  intro w hw
  obtain ⟨hm, hmin, _⟩ := h2 w hw
  rcases hm with hm | hm
  · cases hm
  · exact ⟨hm, hmin⟩

theorem waitingCandidates_mem (wl : List WaitlistEntry) (tid d s e : Nat)
    (w : WaitlistEntry) :
    w ∈ waitingCandidates wl tid d s e ↔
      w ∈ wl ∧ w.tableId = tid ∧ w.date = d ∧ w.status = WStatus.waiting ∧
        w.start_time < e ∧ s < w.end_time := by
  simp only [waitingCandidates, List.mem_filter, overlapsWindow, Bool.and_eq_true,
    beq_iff_eq, decide_eq_true_eq, gt_iff_lt]
  constructor
  · rintro ⟨hm, ⟨⟨⟨h1, h2⟩, h3⟩, h4, h5⟩⟩
    exact ⟨hm, h1, h2, h3, h4, h5⟩
  · rintro ⟨hm, h1, h2, h3, h4, h5⟩
    exact ⟨hm, ⟨⟨⟨h1, h2⟩, h3⟩, h4, h5⟩⟩

theorem rowLe_trans (a b c : TableRow) :
    rowLe a b = true → rowLe b c = true → rowLe a c = true := by
  cases ha : a.has_reservation <;> cases hb : b.has_reservation <;>
    cases hc : c.has_reservation <;>
    simp [rowLe, boolNat, ha, hb, hc, Bool.or_eq_true, Bool.and_eq_true,
      decide_eq_true_eq, beq_iff_eq] <;> omega

theorem rowLe_total (a b : TableRow) : (rowLe a b || rowLe b a) = true := by
  cases ha : a.has_reservation <;> cases hb : b.has_reservation <;>
    simp [rowLe, boolNat, ha, hb, Bool.or_eq_true, Bool.and_eq_true,
      decide_eq_true_eq, beq_iff_eq] <;> omega

theorem create_ok_inv {db : DB} {now userId : Nat} {table : Table}
    {date s e gc : Nat} {r : Reservation} {db' : DB}
    (h : create_reservation db now userId table date s e gc = .ok r db') :
    r = new_reservation db now userId table date s e gc ∧
    db' = { db with
            reservations := db.reservations ++ [r],
            payments := db.payments ++ [new_payment db now r],
            nextResId := db.nextResId + 1,
            nextPayId := db.nextPayId + 1 } := by
  unfold create_reservation at h
  split_ifs at h
  rcases h with ⟨rfl, rfl⟩
  exact ⟨rfl, rfl⟩

theorem create_conflict_of_overlap {db : DB} {now userId : Nat} {table : Table}
    {date s e gc : Nat} (hcap : gc ≤ table.capacity)
    (hov : ∃ r ∈ db.reservations, ConflictsReq r table.id date s e) :
    create_reservation db now userId table date s e gc = .err .slotConflict := by
  have hv : validate_guest_count table gc = true := by
    simp [validate_guest_count]
    omega
  have hav : check_table_availability db.reservations table.id date s e = false := by
    rcases hov with ⟨r, hr, hc⟩
    by_contra hne
    have := check_avail_iff.mp (by simpa using Bool.not_eq_false _ ▸ hne) r hr
    exact this hc
  unfold create_reservation
  rw [hv, hav]
  rfl

theorem create_conflict_needs_overlap {db : DB} {now userId : Nat} {table : Table}
    {date s e gc : Nat}
    (h : create_reservation db now userId table date s e gc = .err .slotConflict) :
    ∃ r ∈ db.reservations, ConflictsReq r table.id date s e := by
  unfold create_reservation at h
  split_ifs at h with h1 h2 h3
  · cases h
  · by_contra hne
    push_neg at hne
    have h2' : check_table_availability db.reservations table.id date s e = false := by
      simpa using h2
    exact absurd (check_avail_iff.mpr fun r hr => hne r hr) (by simp [h2'])
  · cases h

theorem table_has_overlap_iff (resvs : List Reservation) (tid d s e : Nat) :
    table_has_overlap resvs tid d s e = true ↔
      ∃ r ∈ resvs, ConflictsReq r tid d s e := by
  have hdef : table_has_overlap resvs tid d s e =
      !check_specific_table_availability resvs tid d s e := rfl
  rw [hdef, check_specific_eq, Bool.not_eq_true']
  constructor
  · intro h
    by_contra hne
    push_neg at hne
    exact absurd (check_avail_iff.mpr fun r hr => hne r hr) (by simp [h])
  · rintro ⟨r, hr, hc⟩
    by_contra hne
    exact check_avail_iff.mp (Bool.not_eq_false _ ▸ hne) r hr hc

theorem mem_get_available_iff (tables : List Table) (resvs : List Reservation)
    (restaurantId date s e n : Nat) (row : TableRow) :
    row ∈ get_available_tables tables resvs restaurantId date s e n ↔
      ∃ t ∈ tables, t.restaurant.id = restaurantId ∧ round_up_to_even n ≤ t.capacity ∧
        row = { table := t,
                has_reservation := table_has_overlap resvs t.id date s e,
                price := (t.capacity - 1) * seat_price t } := by
  unfold get_available_tables
  rw [(List.mergeSort_perm _ rowLe).mem_iff]
  simp only [List.mem_map, List.mem_filter, Bool.and_eq_true, beq_iff_eq,
    decide_eq_true_eq]
  constructor
  · rintro ⟨t, ⟨ht, h1, h2⟩, rfl⟩
    exact ⟨t, ht, h1, h2, rfl⟩
  · rintro ⟨t, ht, h1, h2, rfl⟩
    exact ⟨t, ⟨ht, h1, h2⟩, rfl⟩

theorem get_available_sorted (tables : List Table) (resvs : List Reservation)
    (restaurantId date s e n : Nat) :
    (get_available_tables tables resvs restaurantId date s e n).Pairwise
      fun a b => rowLe a b = true := by
  unfold get_available_tables
  exact List.sorted_mergeSort rowLe_trans rowLe_total _

theorem expire_pending_crash_iff (db : DB) (now : Nat) :
    expire_pending_reservations db now = (.crashMarkExpired, db) ↔
      ∃ r ∈ db.reservations, r.status = RStatus.pending ∧
        ∃ d, r.payment_deadline = some d ∧ d < now := by
  unfold expire_pending_reservations
  by_cases hc : (db.reservations.any fun r =>
      r.status == RStatus.pending &&
        (match r.payment_deadline with
         | some d => decide (d < now)
         | none => false)) = true
  · rw [if_pos hc]
    simp only [true_iff]
    rcases List.any_eq_true.mp hc with ⟨r, hr, hp⟩
    rw [Bool.and_eq_true, beq_iff_eq] at hp
    refine ⟨r, hr, hp.1, ?_⟩
    rcases hd : r.payment_deadline with _ | d
    · rw [hd] at hp
      simp at hp
    · rw [hd] at hp
      exact ⟨d, rfl, by simpa using hp.2⟩
  · rw [if_neg hc]
    constructor
    · intro h
      cases h
    · rintro ⟨r, hr, hp, d, hd, hlt⟩
      exact absurd (List.any_eq_true.mpr ⟨r, hr, by simp [hp, hd, hlt]⟩) hc

theorem expire_pending_noop_iff (db : DB) (now : Nat) :
    expire_pending_reservations db now = (.done, db) ↔
      ∀ r ∈ db.reservations, r.status = RStatus.pending →
        ∀ d, r.payment_deadline = some d → now ≤ d := by
  unfold expire_pending_reservations
  by_cases hc : (db.reservations.any fun r =>
      r.status == RStatus.pending &&
        (match r.payment_deadline with
         | some d => decide (d < now)
         | none => false)) = true
  · rw [if_pos hc]
    constructor
    · intro h
      cases h
    · intro h
      rcases List.any_eq_true.mp hc with ⟨r, hr, hp⟩
      rw [Bool.and_eq_true, beq_iff_eq] at hp
      rcases hd : r.payment_deadline with _ | d
      · rw [hd] at hp
        simp at hp
      · rw [hd] at hp
        exact absurd (h r hr hp.1 d hd) (by simpa using hp.2)
  · rw [if_neg hc]
    simp only [true_iff]
    intro r hr hp d hd
    by_contra hnow
    push_neg at hnow
    exact hc (List.any_eq_true.mpr ⟨r, hr, by simp [hp, hd, hnow]⟩)

theorem candidate_row_iff (w : WaitlistEntry) (tid d s e : Nat) :
    (w.tableId == tid && (w.date == d) && (w.status == WStatus.waiting) &&
      overlapsWindow w.start_time w.end_time s e) = true ↔
      w.tableId = tid ∧ w.date = d ∧ w.status = WStatus.waiting ∧
        w.start_time < e ∧ s < w.end_time := by
  simp only [overlapsWindow, Bool.and_eq_true, beq_iff_eq, decide_eq_true_eq, gt_iff_lt]
  constructor
  · rintro ⟨⟨⟨h1, h2⟩, h3⟩, h4, h5⟩
    exact ⟨h1, h2, h3, h4, h5⟩
  · rintro ⟨h1, h2, h3, h4, h5⟩
    exact ⟨⟨⟨h1, h2⟩, h3⟩, h4, h5⟩

theorem waitingCandidates_eq_nil_iff (wl : List WaitlistEntry) (tid d s e : Nat) :
    waitingCandidates wl tid d s e = [] ↔
      ∀ w ∈ wl, ¬ (w.tableId = tid ∧ w.date = d ∧ w.status = WStatus.waiting ∧
        w.start_time < e ∧ s < w.end_time) := by
  unfold waitingCandidates
  rw [List.filter_eq_nil_iff]
  exact forall₂_congr fun w _ => not_congr (candidate_row_iff w tid d s e)

theorem process_spec (db : DB) (now tid d s e : Nat) :
    ((process_waitlist_for_slot db now tid d s e).1 = none ↔
      waitingCandidates db.waitlist tid d s e = []) ∧
    (∀ w', (process_waitlist_for_slot db now tid d s e).1 = some w' →
      ∃ w, get_first_waiting_entry db.waitlist tid d s e = some w ∧
        w ∈ waitingCandidates db.waitlist tid d s e ∧
        (∀ x ∈ waitingCandidates db.waitlist tid d s e, ¬ entryBefore x w = true) ∧
        w' = w.notify now ∧
        (process_waitlist_for_slot db now tid d s e).2 =
          { db with waitlist := saveWl db.waitlist w' }) := by
  unfold process_waitlist_for_slot
  cases hg : get_first_waiting_entry db.waitlist tid d s e with
  | none =>
    refine ⟨?_, ?_⟩
    · simpa using (get_first_spec db.waitlist tid d s e).1.mp hg
    · intro w' hw'
      cases hw'
  | some w =>
    obtain ⟨hm, hmin⟩ := (get_first_spec db.waitlist tid d s e).2 w hg
    refine ⟨?_, ?_⟩
    · constructor
      · intro h
        cases h
      · intro hcand
        have := (get_first_spec db.waitlist tid d s e).1.mpr hcand
        rw [hg] at this
        cases this
    · intro w' hw'
      have hw'' : w.notify now = w' := by simpa using hw'
      subst hw''
      exact ⟨w, rfl, hm, hmin, rfl, rfl⟩

theorem rowLe_not_conflict_first {a b : TableRow} (h : rowLe a b = true) :
    ¬ (a.has_reservation = true ∧ b.has_reservation = false) := by
  rintro ⟨ha, hb⟩
  simp [rowLe, boolNat, ha, hb] at h

theorem rowLe_price_mono {a b : TableRow} (h : rowLe a b = true)
    (hab : a.has_reservation = b.has_reservation) : a.price ≤ b.price := by
  cases hx : a.has_reservation <;> cases hy : b.has_reservation
  · simp [rowLe, boolNat, hx, hy, Bool.or_eq_true, Bool.and_eq_true,
      decide_eq_true_eq, beq_iff_eq] at h
    omega
  · rw [hx, hy] at hab
    cases hab
  · rw [hx, hy] at hab
    cases hab
  · simp [rowLe, boolNat, hx, hy, Bool.or_eq_true, Bool.and_eq_true,
      decide_eq_true_eq, beq_iff_eq] at h
    omega

/-- C1: in every store reachable by running the reservation operations
(create, confirm, cancel, complete, waitlist promotion and conversion, and
the expiry sweeps), any two reservation rows on the same table and date that
are both active (PENDING or CONFIRMED) have non-overlapping half-open time
windows. -/
theorem C1_reachable_no_double_booking {db : DB} (h : Reachable db) :
    db.reservations.Pairwise fun a b => ¬ SlotConflict a b :=
  (reachable_inv h).noConflict

/-- Witness for C1: a concrete trace of two back-to-back bookings. -/
theorem C1_reachable_no_double_booking_witness :
    (createDB (createDB initDB 0 7 table0 5 720 840 2) 60 8 table0 5 840 960 3).reservations.Pairwise
      (fun a b => ¬ SlotConflict a b) :=
  C1_reachable_no_double_booking
    (Reachable.step
      (Reachable.step Reachable.init (Step.create initDB 0 7 table0 5 720 840 2))
      (Step.create (createDB initDB 0 7 table0 5 720 840 2) 60 8 table0 5 840 960 3))

/-- C2 counterexample: a request that overlaps `sampleRes` (active on the same
table and date) but also exceeds the table's capacity fails with the capacity
error, not the conflict error, because `create_reservation` checks capacity
first; so an overlapping request does not always fail with a conflict error. -/
theorem C2_counterexample :
    ConflictsReq sampleRes table0.id 5 780 900 ∧
    sampleRes ∈ sampleDB.reservations ∧
    create_reservation sampleDB 0 9 table0 5 780 900 5 = .err .capacityExceeded ∧
    CreateError.capacityExceeded ≠ CreateError.slotConflict := by
  decide

/-- C2 amended: provided the requested guest count fits the table, a create
request whose window overlaps an existing active reservation on the same
table and date always fails with the conflict error and writes nothing; and a
conflict error is only ever produced by such an active overlap, so CANCELLED
or COMPLETED rows never block. -/
theorem C2_overlap_fails_with_conflict :
    (∀ (db : DB) (now userId : Nat) (table : Table) (date s e gc : Nat),
      gc ≤ table.capacity →
      (∃ r ∈ db.reservations, ConflictsReq r table.id date s e) →
      create_reservation db now userId table date s e gc = .err .slotConflict ∧
      createDB db now userId table date s e gc = db) ∧
    (∀ (db : DB) (now userId : Nat) (table : Table) (date s e gc : Nat),
      create_reservation db now userId table date s e gc = .err .slotConflict →
      ∃ r ∈ db.reservations, ConflictsReq r table.id date s e) := by
  constructor
  · intro db now userId table date s e gc hcap hov
    have h := @create_conflict_of_overlap db now userId table date s e gc hcap hov
    refine ⟨h, ?_⟩
    unfold createDB
    rw [h]
  · intro db now userId table date s e gc h
    exact create_conflict_needs_overlap h

/-- Witness for C2 at a fitting overlapping request against `sampleDB`. -/
theorem C2_overlap_fails_with_conflict_witness :
    create_reservation sampleDB 0 9 table0 5 780 900 2 = .err .slotConflict ∧
    createDB sampleDB 0 9 table0 5 780 900 2 = sampleDB ∧
    (∃ r ∈ sampleDB.reservations, ConflictsReq r table0.id 5 780 900) := by
  have h := C2_overlap_fails_with_conflict.1 sampleDB 0 9 table0 5 780 900 2
    (by decide) (by decide)
  exact ⟨h.1, h.2, C2_overlap_fails_with_conflict.2 sampleDB 0 9 table0 5 780 900 2 h.1⟩

/-- C3: confirm on a non-PENDING reservation fails and changes nothing, and
confirming a fresh PENDING reservation sets CONFIRMED and clears the
deadline; but on a PENDING reservation whose deadline has passed the code
raises AttributeError (the Reservation model defines no `mark_expired`)
instead of expiring it, leaving the store unchanged. -/
theorem C3_confirm_reservation_behaviour :
    (∀ (db : DB) (now rid : Nat) (r : Reservation),
      db.reservations.find? (fun x => x.id == rid) = some r →
      r.status ≠ RStatus.pending →
      confirm_reservation db now rid = (.notPending, db)) ∧
    (∀ (db : DB) (now rid : Nat) (r : Reservation),
      db.reservations.find? (fun x => x.id == rid) = some r →
      r.status = RStatus.pending →
      is_payment_expired now r = true →
      confirm_reservation db now rid = (.crashMarkExpired, db)) ∧
    (∀ (db : DB) (now rid : Nat) (r : Reservation),
      db.reservations.find? (fun x => x.id == rid) = some r →
      r.status = RStatus.pending →
      is_payment_expired now r = false →
      confirm_reservation db now rid =
        (.ok, { db with reservations := saveRes db.reservations r.confirm })) := by
  refine ⟨?_, ?_, ?_⟩
  · intro db now rid r hf hs
    unfold confirm_reservation
    rw [hf]
    simp [hs]
  · intro db now rid r hf hs he
    unfold confirm_reservation
    rw [hf]
    simp [hs, he]
  · intro db now rid r hf hs he
    unfold confirm_reservation
    rw [hf]
    simp [hs, he]

/-- Witness for C3 on concrete stores: a confirmed reservation, an expired
pending one (deadline 900, clock 1000), and a fresh pending one (clock 100). -/
theorem C3_confirm_reservation_behaviour_witness :
    confirm_reservation confirmedDB 100 1 = (.notPending, confirmedDB) ∧
    confirm_reservation sampleDB 1000 1 = (.crashMarkExpired, sampleDB) ∧
    confirm_reservation sampleDB 100 1 =
      (.ok, { sampleDB with reservations := saveRes sampleDB.reservations sampleRes.confirm }) :=
  ⟨C3_confirm_reservation_behaviour.1 confirmedDB 100 1 confirmedRes (by decide) (by decide),
   C3_confirm_reservation_behaviour.2.1 sampleDB 1000 1 sampleRes (by decide) (by decide)
     (by decide),
   C3_confirm_reservation_behaviour.2.2 sampleDB 100 1 sampleRes (by decide) (by decide)
     (by decide)⟩

/-- C4: the payment-verification endpoint raises KeyError on every request —
`PaymentVerifySerializer` declares no `payment_id` field, so
`validated_data["payment_id"]` never exists — and the model-level
`PaymentRecord.verify` carries no PENDING guard: re-verifying an
already-VERIFIED payment overwrites its reference and timestamp and
re-confirms the owning reservation, here flipping a CANCELLED reservation
back to CONFIRMED. -/
theorem C4_payment_verify_behaviour :
    (∀ (db : DB) (now userId : Nat) (body : VerifyRequestBody),
      payment_verify_view_post db now userId body = (.keyErrorPaymentId, db)) ∧
    verifiedPay.status = PayStatus.verified ∧
    cancelledRes.status = RStatus.cancelled ∧
    (payment_verify verifiedPayDB 500 1 "REF2").payments =
      [{ verifiedPay with ref_id := "REF2", verified_at := some 500 }] ∧
    (payment_verify verifiedPayDB 500 1 "REF2").reservations = [cancelledRes.confirm] ∧
    (cancelledRes.confirm).status = RStatus.confirmed := by
  refine ⟨fun db now userId body => rfl, ?_, ?_, ?_, ?_, ?_⟩ <;> decide

/-- C5: `cancel_reservation` commits the cancellation (status CANCELLED,
reason recorded) and then crashes with AttributeError because
`WaitlistService.process_waitlist` does not exist, so the overlapping WAITING
entry is never promoted, converted or linked. -/
theorem C5_cancel_crashes_without_promotion :
    confirmedRes.status = RStatus.confirmed ∧
    entryB ∈ cancelWaitlistDB.waitlist ∧
    entryB.start_time < confirmedRes.end_time ∧
    confirmedRes.start_time < entryB.end_time ∧
    cancel_reservation cancelWaitlistDB 1 "plans changed" =
      (.crashProcessWaitlistMissing,
        { cancelWaitlistDB with
            reservations := [confirmedRes.cancel "plans changed"] }) ∧
    (confirmedRes.cancel "plans changed").status = RStatus.cancelled ∧
    (confirmedRes.cancel "plans changed").cancellation_reason = "plans changed" ∧
    (cancel_reservation cancelWaitlistDB 1 "plans changed").2.waitlist = [entryB] ∧
    entryB.status = WStatus.waiting := by
  decide

/-- C6 counterexample: with the freed slot 720-840, both entries overlap and
are WAITING, `entryE1` was created first (creation time 1 < 2), yet
`get_first_waiting_entry` returns `entryE2` because it orders by queue
position before creation time; so promotion is not strict FIFO by creation
time. -/
theorem C6_counterexample :
    entryE1 ∈ waitingCandidates [entryE1, entryE2] 1 5 720 840 ∧
    entryE2 ∈ waitingCandidates [entryE1, entryE2] 1 5 720 840 ∧
    entryE1.created_at < entryE2.created_at ∧
    get_first_waiting_entry [entryE1, entryE2] 1 5 720 840 = some entryE2 := by
  decide

/-- C6 amended: promotion selects, among the WAITING entries on the same
table and date overlapping the freed half-open window, the entry minimal in
the lexicographic order of (queue position, creation time) — position first,
creation time only to break ties — marks it NOTIFIED with `notified_at`
stamped and a 30-minute claim deadline, and returns nothing (a normal
outcome) when no entry matches. -/
theorem C6_promotion_position_then_creation (db : DB) (now tid d s e : Nat) :
    ((process_waitlist_for_slot db now tid d s e).1 = none ↔
      ∀ w ∈ db.waitlist, ¬ (w.tableId = tid ∧ w.date = d ∧
        w.status = WStatus.waiting ∧ w.start_time < e ∧ s < w.end_time)) ∧
    (∀ w', (process_waitlist_for_slot db now tid d s e).1 = some w' →
      ∃ w ∈ db.waitlist,
        w.tableId = tid ∧ w.date = d ∧ w.status = WStatus.waiting ∧
        w.start_time < e ∧ s < w.end_time ∧
        (∀ x ∈ db.waitlist,
          x.tableId = tid → x.date = d → x.status = WStatus.waiting →
          x.start_time < e → s < x.end_time →
          (w.position < x.position ∨
            (w.position = x.position ∧ w.created_at ≤ x.created_at))) ∧
        w' = w.notify now ∧
        w'.status = WStatus.notified ∧
        w'.notified_at = some now ∧
        w'.payment_deadline = some (now + 30 * 60) ∧
        (process_waitlist_for_slot db now tid d s e).2 =
          { db with waitlist := saveWl db.waitlist w' }) := by
  obtain ⟨hnone, hsome⟩ := process_spec db now tid d s e
  constructor
  · rw [hnone]
    exact waitingCandidates_eq_nil_iff db.waitlist tid d s e
  · intro w' hw'
    obtain ⟨w, _, hcand, hmin, hnotify, hdb⟩ := hsome w' hw'
    obtain ⟨hwl, h1, h2, h3, h4, h5⟩ := (waitingCandidates_mem db.waitlist tid d s e w).mp hcand
    refine ⟨w, hwl, h1, h2, h3, h4, h5, ?_, hnotify, ?_, ?_, ?_, hdb⟩
    · intro x hx hx1 hx2 hx3 hx4 hx5
      have hxc : x ∈ waitingCandidates db.waitlist tid d s e :=
        (waitingCandidates_mem db.waitlist tid d s e x).mpr ⟨hx, hx1, hx2, hx3, hx4, hx5⟩
      have := hmin x hxc
      rw [entryBefore_iff] at this
      omega
    · rw [hnotify]
      rfl
    · rw [hnotify]
      rfl
    · rw [hnotify]
      rfl

/-- Witness for C6: no candidate in the empty store, and the single waiting
entry of `promoteDB0` is promoted with deadline 1000 + 1800. -/
theorem C6_promotion_position_then_creation_witness :
    (process_waitlist_for_slot initDB 1000 1 5 720 840).1 = none ∧
    (∃ w ∈ promoteDB0.waitlist,
      w.tableId = 1 ∧ w.date = 5 ∧ w.status = WStatus.waiting ∧
      w.start_time < 840 ∧ 720 < w.end_time ∧
      (∀ x ∈ promoteDB0.waitlist,
        x.tableId = 1 → x.date = 5 → x.status = WStatus.waiting →
        x.start_time < 840 → 720 < x.end_time →
        (w.position < x.position ∨
          (w.position = x.position ∧ w.created_at ≤ x.created_at))) ∧
      entryE1.notify 1000 = w.notify 1000 ∧
      (entryE1.notify 1000).status = WStatus.notified ∧
      (entryE1.notify 1000).notified_at = some 1000 ∧
      (entryE1.notify 1000).payment_deadline = some (1000 + 30 * 60) ∧
      (process_waitlist_for_slot promoteDB0 1000 1 5 720 840).2 =
        { promoteDB0 with waitlist := saveWl promoteDB0.waitlist (entryE1.notify 1000) }) :=
  ⟨(C6_promotion_position_then_creation initDB 1000 1 5 720 840).1.mpr (by decide),
   (C6_promotion_position_then_creation promoteDB0 1000 1 5 720 840).2
     (entryE1.notify 1000) (by decide)⟩

/-- C7: convert fails with a state error when the entry is not NOTIFIED,
expires the entry and reports the deadline error when the claim deadline has
passed, and leaves the entry NOTIFIED when the availability re-check fails;
but on the success path it raises TypeError — `create_reservation` accepts no
`from_waitlist` keyword — so no reservation is created and the entry is never
converted. -/
theorem C7_convert_behaviour :
    (∀ (db : DB) (now wid : Nat) (w : WaitlistEntry),
      db.waitlist.find? (fun x => x.id == wid) = some w →
      w.status ≠ WStatus.notified →
      convert_waitlist_to_reservation db now wid = (.invalid, db)) ∧
    (∀ (db : DB) (now wid : Nat) (w : WaitlistEntry) (d : Nat),
      db.waitlist.find? (fun x => x.id == wid) = some w →
      w.status = WStatus.notified →
      w.payment_deadline = some d → d < now →
      convert_waitlist_to_reservation db now wid =
        (.deadlinePassed, { db with waitlist := saveWl db.waitlist w.expire })) ∧
    (∀ (db : DB) (now wid : Nat) (w : WaitlistEntry),
      db.waitlist.find? (fun x => x.id == wid) = some w →
      w.status = WStatus.notified →
      (∀ d, w.payment_deadline = some d → now ≤ d) →
      check_specific_table_availability db.reservations w.tableId w.date
        w.start_time w.end_time = false →
      convert_waitlist_to_reservation db now wid = (.unavailable, db)) ∧
    (∀ (db : DB) (now wid : Nat) (w : WaitlistEntry),
      db.waitlist.find? (fun x => x.id == wid) = some w →
      w.status = WStatus.notified →
      (∀ d, w.payment_deadline = some d → now ≤ d) →
      check_specific_table_availability db.reservations w.tableId w.date
        w.start_time w.end_time = true →
      convert_waitlist_to_reservation db now wid = (.crashUnexpectedKeyword, db)) := by
  refine ⟨?_, ?_, ?_, ?_⟩
  · intro db now wid w hf hs
    unfold convert_waitlist_to_reservation
    rw [hf]
    simp [hs]
  · intro db now wid w d hf hs hd hlt
    unfold convert_waitlist_to_reservation
    rw [hf]
    simp [hs, hd, hlt]
  · intro db now wid w hf hs hd hav
    have hdl : (match w.payment_deadline with
        | some dd => decide (now > dd)
        | none => false) = false := by
      cases hpd : w.payment_deadline with
      | none => rfl
      | some dd =>
        have := hd dd hpd
        simp
        omega
    unfold convert_waitlist_to_reservation
    rw [hf]
    simp [hs, hdl, hav]
  · intro db now wid w hf hs hd hav
    have hdl : (match w.payment_deadline with
        | some dd => decide (now > dd)
        | none => false) = false := by
      cases hpd : w.payment_deadline with
      | none => rfl
      | some dd =>
        have := hd dd hpd
        simp
        omega
    unfold convert_waitlist_to_reservation
    rw [hf]
    simp [hs, hdl, hav]

/-- Witness for C7: the four branches at concrete stores — a WAITING entry,
an expired NOTIFIED entry (deadline 2000, clock 3000), a blocked slot, and a
free slot where the code crashes instead of creating the reservation. -/
theorem C7_convert_behaviour_witness :
    convert_waitlist_to_reservation cancelWaitlistDB 500 1 = (.invalid, cancelWaitlistDB) ∧
    convert_waitlist_to_reservation notifiedDB 3000 1 =
      (.deadlinePassed,
        { notifiedDB with waitlist := saveWl notifiedDB.waitlist notifiedEntry.expire }) ∧
    convert_waitlist_to_reservation notifiedBlockedDB 500 1 = (.unavailable, notifiedBlockedDB) ∧
    convert_waitlist_to_reservation notifiedDB 500 1 = (.crashUnexpectedKeyword, notifiedDB) :=
  ⟨C7_convert_behaviour.1 cancelWaitlistDB 500 1 entryB (by decide) (by decide),
   C7_convert_behaviour.2.1 notifiedDB 3000 1 notifiedEntry 2000 (by decide) (by decide)
     (by decide) (by decide),
   C7_convert_behaviour.2.2.1 notifiedBlockedDB 500 1 notifiedEntry (by decide) (by decide)
     (by decide) (by decide),
   C7_convert_behaviour.2.2.2 notifiedDB 500 1 notifiedEntry (by decide) (by decide)
     (by decide) (by decide)⟩

/-- C8: the deadline-based sweep `expire_pending_reservations` crashes with
AttributeError (no `Reservation.mark_expired`) as soon as any PENDING row has
a passed deadline, expiring nothing, and is a no-op when none has; while the
stale sweep `expire_stale_pending_reservations` cancels a PENDING reservation
a mere 11 seconds after creation even though its payment deadline (900) has
not passed. -/
theorem C8_expiry_sweep_behaviour :
    (∀ (db : DB) (now : Nat),
      (∃ r ∈ db.reservations, r.status = RStatus.pending ∧
        ∃ d, r.payment_deadline = some d ∧ d < now) →
      expire_pending_reservations db now = (.crashMarkExpired, db)) ∧
    (∀ (db : DB) (now : Nat),
      (∀ r ∈ db.reservations, r.status = RStatus.pending →
        ∀ d, r.payment_deadline = some d → now ≤ d) →
      expire_pending_reservations db now = (.done, db)) ∧
    (sampleRes.status = RStatus.pending ∧
      sampleRes.payment_deadline = some 900 ∧ (11 : Nat) ≤ 900 ∧
      (expire_stale_pending_reservations sampleDB 11).reservations =
        [sampleRes.cancel "Payment not completed within time limit"] ∧
      (sampleRes.cancel "Payment not completed within time limit").status =
        RStatus.cancelled) := by
  refine ⟨?_, ?_, ?_⟩
  · intro db now h
    exact (expire_pending_crash_iff db now).mpr h
  · intro db now h
    exact (expire_pending_noop_iff db now).mpr h
  · decide

/-- Witness for C8: `sampleDB` at clock 1000 (deadline 900 passed) crashes
the deadline sweep; at clock 100 the sweep is a no-op. -/
theorem C8_expiry_sweep_behaviour_witness :
    expire_pending_reservations sampleDB 1000 = (.crashMarkExpired, sampleDB) ∧
    expire_pending_reservations sampleDB 100 = (.done, sampleDB) :=
  ⟨C8_expiry_sweep_behaviour.1 sampleDB 1000 (by decide),
   C8_expiry_sweep_behaviour.2.1 sampleDB 100 (by decide)⟩

/-- C9 counterexample: booking the VIP table for two guests stores price
2 x 50 = 100 — `calculate_price` always uses the restaurant's normal rate —
whereas the per-seat rate determined by the table's type (the `seat_price`
rule used by the availability search) would give 2 x 100 = 200. -/
theorem C9_counterexample :
    vipTable0.table_type = TableType.VIP ∧
    createdPrice (create_reservation initDB 0 7 vipTable0 1 720 840 2) = some 100 ∧
    2 * seat_price vipTable0 = 200 ∧
    (100 : Nat) ≠ 200 := by
  decide

/-- C9 amended: every successful create stores price equal to the literal
requested guest count times the restaurant's NORMAL per-seat rate (the
table's type is ignored by billing), stores the literal guest count, and
writes exactly one new PaymentRecord, PENDING, with amount equal to that
price. -/
theorem C9_price_normal_rate_single_pending_payment :
    ∀ (db : DB) (now userId : Nat) (table : Table) (date s e gc : Nat)
      (r : Reservation) (db' : DB),
      create_reservation db now userId table date s e gc = .ok r db' →
      r.price = table.restaurant.normal_price_per_seat * gc ∧
      r.guest_count = gc ∧
      r.status = RStatus.pending ∧
      db'.reservations = db.reservations ++ [r] ∧
      db'.payments = db.payments ++ [new_payment db now r] ∧
      (new_payment db now r).amount = r.price ∧
      (new_payment db now r).status = PayStatus.pending ∧
      (new_payment db now r).reservationId = r.id := by
  intro db now userId table date s e gc r db' h
  obtain ⟨hr, hdb⟩ := create_ok_inv h
  subst hr
  subst hdb
  exact ⟨rfl, rfl, rfl, rfl, rfl, rfl, rfl, rfl⟩

/-- Witness for C9: a successful three-guest booking of the normal table. -/
theorem C9_price_normal_rate_single_pending_payment_witness :
    (new_reservation initDB 0 7 table0 5 720 840 3).price =
      table0.restaurant.normal_price_per_seat * 3 ∧
    (new_reservation initDB 0 7 table0 5 720 840 3).guest_count = 3 ∧
    (new_reservation initDB 0 7 table0 5 720 840 3).status = RStatus.pending ∧
    (createDB initDB 0 7 table0 5 720 840 3).reservations =
      initDB.reservations ++ [new_reservation initDB 0 7 table0 5 720 840 3] ∧
    (createDB initDB 0 7 table0 5 720 840 3).payments =
      initDB.payments ++ [new_payment initDB 0 (new_reservation initDB 0 7 table0 5 720 840 3)] ∧
    (new_payment initDB 0 (new_reservation initDB 0 7 table0 5 720 840 3)).amount =
      (new_reservation initDB 0 7 table0 5 720 840 3).price ∧
    (new_payment initDB 0 (new_reservation initDB 0 7 table0 5 720 840 3)).status =
      PayStatus.pending ∧
    (new_payment initDB 0 (new_reservation initDB 0 7 table0 5 720 840 3)).reservationId =
      (new_reservation initDB 0 7 table0 5 720 840 3).id :=
  C9_price_normal_rate_single_pending_payment initDB 0 7 table0 5 720 840 3
    (new_reservation initDB 0 7 table0 5 720 840 3)
    (createDB initDB 0 7 table0 5 720 840 3) (by decide)

/-- C10: the availability listing contains exactly the restaurant's tables
whose capacity is at least the party size rounded up to even; each row's
conflict flag is set precisely when some active reservation overlaps the
window, and its advertised price is (capacity - 1) times the type-dependent
per-seat rate; and the listing puts every conflict-free table before every
conflicted one and is price-ascending within each group. -/
theorem C10_availability_listing (tables : List Table) (resvs : List Reservation)
    (restaurantId date s e n : Nat) :
    (∀ row ∈ get_available_tables tables resvs restaurantId date s e n,
      row.table ∈ tables ∧ row.table.restaurant.id = restaurantId ∧
      round_up_to_even n ≤ row.table.capacity ∧
      row.price = (row.table.capacity - 1) * seat_price row.table ∧
      (row.has_reservation = true ↔
        ∃ r ∈ resvs, ConflictsReq r row.table.id date s e)) ∧
    (∀ t ∈ tables, t.restaurant.id = restaurantId → round_up_to_even n ≤ t.capacity →
      ∃ row ∈ get_available_tables tables resvs restaurantId date s e n,
        row.table = t) ∧
    (get_available_tables tables resvs restaurantId date s e n).Pairwise
      (fun a b => ¬ (a.has_reservation = true ∧ b.has_reservation = false)) ∧
    (get_available_tables tables resvs restaurantId date s e n).Pairwise
      (fun a b => a.has_reservation = b.has_reservation → a.price ≤ b.price) := by
  refine ⟨?_, ?_, ?_, ?_⟩
  · intro row hrow
    obtain ⟨t, ht, h1, h2, hrw⟩ :=
      (mem_get_available_iff tables resvs restaurantId date s e n row).mp hrow
    subst hrw
    exact ⟨ht, h1, h2, rfl, table_has_overlap_iff resvs t.id date s e⟩
  · intro t ht h1 h2
    exact ⟨_, (mem_get_available_iff tables resvs restaurantId date s e n _).mpr
      ⟨t, ht, h1, h2, rfl⟩, rfl⟩
  · exact (get_available_sorted tables resvs restaurantId date s e n).imp
      fun {a b} hle => rowLe_not_conflict_first hle
  · exact (get_available_sorted tables resvs restaurantId date s e n).imp
      fun {a b} hle heq => rowLe_price_mono hle heq

/-- Witness for C10: `table0` appears in the listing of its restaurant for a
party of three. -/
theorem C10_availability_listing_witness :
    ∃ row ∈ get_available_tables [table0, vipTable0] [sampleRes] 1 5 720 840 3,
      row.table = table0 :=
  (C10_availability_listing [table0, vipTable0] [sampleRes] 1 5 720 840 3).2.1
    table0 (by decide) (by decide) (by decide)

end RestaurantApp
